import Mathlib

/-!
Verification of the easydep agent (easydep-server) against its
natural-language specification.  The Rust sources are shallowly embedded:
pure functions become Lean functions, the stateful parts become explicit
state passing over small state types, fallible operations return `Except`
or `Option`, and the nondeterministic environment (filesystem answers,
child-process output, GitHub collaborator results) is passed in as data.
-/

/- ## Configuration (src/easydep-server/src/config.rs) -/

/-- Embedding of `config.rs::Symlink`. -/
structure Symlink where
  source : String
  target : String
  deriving Repr, DecidableEq

/-- Embedding of `config.rs::DeploymentConfiguration` (the fields the verified
operations read). -/
structure DeploymentConfiguration where
  id : String
  target : String
  extendOnly : Bool
  sourceRepoOwner : String
  sourceRepoName : String
  allowedRepoBranches : List String
  deniedRepoBranches : List String
  revisionFileName : Option String
  extendedScriptConfigurations : List String
  symlinks : List String
  deriving Repr, DecidableEq

/-- Embedding of `config.rs::Configuration` (the fields the verified
operations read). -/
structure Configuration where
  bindHost : String
  baseDirectory : String
  githubAppId : Nat
  githubAppPemKeyPath : String
  retainedReleases : Nat
  deploymentConfigs : List DeploymentConfiguration
  deriving Repr, DecidableEq

/-- Embedding of `DeploymentConfiguration::is_branch_allowed_to_use_config`:
denied branches are checked first; an empty allow list allows every branch. -/
def isBranchAllowedToUseConfig (cfg : DeploymentConfiguration)
    (branchName : String) : Bool :=
  if cfg.deniedRepoBranches.contains branchName then
    false
  else
    cfg.allowedRepoBranches.isEmpty || cfg.allowedRepoBranches.contains branchName

/-- Embedding of Rust `str::split_once(':')` on the character list of the
entry: split at the first colon, the part before it becomes the source and
everything after it (which may contain further colons) the target. -/
def splitOnceColon : List Char → Option (List Char × List Char)
  | [] => none
  | c :: rest =>
    if c = ':' then
      some ([], rest)
    else
      match splitOnceColon rest with
      | some (before, after) => some (c :: before, after)
      | none => none

/-- Embedding of `DeploymentConfiguration::get_symlinks`: map `split_once(':')`
over the configured entries and silently drop the entries without a colon. -/
def getSymlinks (cfg : DeploymentConfiguration) : List Symlink :=
  cfg.symlinks.filterMap fun entry =>
    (splitOnceColon entry.toList).map fun split =>
      { source := String.mk split.1, target := String.mk split.2 }

/-- The outside world observed by `Configuration::validate`: whether spawning
`git --version` succeeds with a successful exit status, and whether the
`bash` executable is present (the latter is part of the claimed behaviour
and must therefore be part of the model even though the source never
consults it). -/
structure ValidationEnv where
  gitVersionOk : Bool
  bashPresent : Bool
  deriving Repr, DecidableEq

/-- Embedding of `PathBuf::from(base_directory).starts_with("/")`: the path
starts with the root component exactly when its first character is `/`. -/
def pathStartsWithRoot (s : String) : Bool :=
  match s.toList with
  | [] => false
  | c :: _ => c = '/'

/-- The duplicate-detection loop of `Configuration::validate`: walk the
profiles keeping the set of already-seen ids, and report the first id that
was seen before. -/
def firstDuplicateId : List String → List String → Option String
  | _, [] => none
  | seen, id :: rest =>
    if seen.contains id then some id else firstDuplicateId (id :: seen) rest

/-- Embedding of `Configuration::validate`: the base directory must start
with `/`, profile ids must be unique, and `git --version` must succeed.
No other check is performed. -/
def validateConfiguration (cfg : Configuration) (env : ValidationEnv) :
    Except String Unit :=
  if !(pathStartsWithRoot cfg.baseDirectory) then
    .error "base dir path must be absolute"
  else
    match firstDuplicateId [] (cfg.deploymentConfigs.map (·.id)) with
    | some id => .error ("detected duplicate deployment configuration id: " ++ id)
    | none =>
      if env.gitVersionOk then
        .ok ()
      else
        .error "unable to detect running git version"

/- ## Theorems for C8 -/

/-- C8: a branch passes a profile's filter iff it is not denied and
(the allow list is empty or contains it); with `allowed=[]` and
`denied=["main"]` exactly the branch `main` is rejected. -/
theorem branch_filter_denied_before_allowed :
    (∀ (cfg : DeploymentConfiguration) (branch : String),
      isBranchAllowedToUseConfig cfg branch = true ↔
        (¬ branch ∈ cfg.deniedRepoBranches ∧
          (cfg.allowedRepoBranches = [] ∨ branch ∈ cfg.allowedRepoBranches))) ∧
    (∀ (cfg : DeploymentConfiguration) (branch : String),
      cfg.allowedRepoBranches = [] → cfg.deniedRepoBranches = ["main"] →
        (isBranchAllowedToUseConfig cfg branch = false ↔ branch = "main")) := by
  constructor
  · intro cfg branch
    simp [isBranchAllowedToUseConfig, List.isEmpty_iff]
  · intro cfg branch hallow hdeny
    simp [isBranchAllowedToUseConfig, hallow, hdeny]

/-- Witness for C8 at concrete inputs: with `allowed=[]`, `denied=["main"]`
the branch `main` is rejected and the branch `dev` is accepted. -/
theorem branch_filter_denied_before_allowed_witness :
    (isBranchAllowedToUseConfig
        { id := "p1", target := "web", extendOnly := false,
          sourceRepoOwner := "o", sourceRepoName := "r",
          allowedRepoBranches := [], deniedRepoBranches := ["main"],
          revisionFileName := none, extendedScriptConfigurations := [],
          symlinks := [] } "main" = false) ∧
    (isBranchAllowedToUseConfig
        { id := "p1", target := "web", extendOnly := false,
          sourceRepoOwner := "o", sourceRepoName := "r",
          allowedRepoBranches := [], deniedRepoBranches := ["main"],
          revisionFileName := none, extendedScriptConfigurations := [],
          symlinks := [] } "dev" = true) := by
  constructor
  · exact ((branch_filter_denied_before_allowed.2 _ "main" rfl rfl).mpr rfl)
  · have h := (branch_filter_denied_before_allowed.1
      { id := "p1", target := "web", extendOnly := false,
        sourceRepoOwner := "o", sourceRepoName := "r",
        allowedRepoBranches := [], deniedRepoBranches := ["main"],
        revisionFileName := none, extendedScriptConfigurations := [],
        symlinks := [] } "dev")
    apply h.mpr
    constructor
    · simp
    · exact Or.inl rfl

/- ## Theorems for C10 -/

/-- Helper: when `splitOnceColon` returns a pair, the input is the source,
the first colon, and the target, and the source holds no colon. -/
theorem splitOnceColon_eq_some : ∀ (l a b : List Char),
    splitOnceColon l = some (a, b) → l = a ++ ':' :: b ∧ ':' ∉ a := by
  intro l
  induction l with
  | nil => intro a b h; simp [splitOnceColon] at h
  | cons c rest ih =>
    intro a b h
    by_cases hc : c = ':'
    · subst hc
      simp [splitOnceColon] at h
      obtain ⟨ha, hb⟩ := h
      subst ha; subst hb
      simp
    · simp only [splitOnceColon, if_neg hc] at h
      cases hsplit : splitOnceColon rest with
      | none => rw [hsplit] at h; simp at h
      | some p =>
        obtain ⟨a0, b0⟩ := p
        rw [hsplit] at h
        simp at h
        obtain ⟨ha, hb⟩ := h
        obtain ⟨h1, h2⟩ := ih a0 b0 hsplit
        subst hb
        constructor
        · rw [← ha, h1]; simp
        · rw [← ha]
          simp [h2]
          exact fun hcontra => hc hcontra.symm

/-- Helper: `splitOnceColon` returns nothing exactly when the entry holds
no colon at all. -/
theorem splitOnceColon_eq_none : ∀ l : List Char,
    splitOnceColon l = none ↔ ':' ∉ l := by
  intro l
  induction l with
  | nil => simp [splitOnceColon]
  | cons c rest ih =>
    by_cases hc : c = ':'
    · subst hc; simp [splitOnceColon]
    · simp only [splitOnceColon, if_neg hc]
      cases hsplit : splitOnceColon rest with
      | none =>
        rw [hsplit] at ih
        simp at ih
        simp [List.mem_cons, ih]
        exact fun h => hc h.symm
      | some p =>
        rw [hsplit] at ih
        simp at ih ⊢
        exact fun _ => ih

/-- C10: symlink parsing splits each configured entry at its first colon,
the target keeps any further colons, and entries without a colon are
silently dropped (no error, no symlink). -/
theorem symlink_parsing_first_colon_drops_malformed :
    (∀ (l a b : List Char), splitOnceColon l = some (a, b) →
        l = a ++ ':' :: b ∧ ':' ∉ a) ∧
    (∀ l : List Char, splitOnceColon l = none ↔ ':' ∉ l) ∧
    (∀ cfg : DeploymentConfiguration,
      getSymlinks cfg = cfg.symlinks.filterMap fun entry =>
        (splitOnceColon entry.toList).map fun split =>
          { source := String.mk split.1, target := String.mk split.2 }) :=
  ⟨splitOnceColon_eq_some, splitOnceColon_eq_none, fun _ => rfl⟩

/-- Witness for C10 at concrete inputs: `storage:/mnt/data:x` splits into
source `storage` and target `/mnt/data:x`, and `nocolon` is dropped. -/
theorem symlink_parsing_first_colon_drops_malformed_witness :
    ("storage:/mnt/data:x".toList = "storage".toList ++ ':' :: "/mnt/data:x".toList
        ∧ ':' ∉ "storage".toList) ∧
    splitOnceColon "nocolon".toList = none := by
  constructor
  · exact symlink_parsing_first_colon_drops_malformed.1
      "storage:/mnt/data:x".toList "storage".toList "/mnt/data:x".toList (by decide)
  · exact (symlink_parsing_first_colon_drops_malformed.2.1 "nocolon".toList).mpr
      (by decide)

/- ## Theorems for C9 -/

/-- Helper: the duplicate scan reports nothing exactly when the profile ids
are pairwise distinct and none of them was seen before. -/
theorem firstDuplicateId_eq_none : ∀ (seen l : List String),
    firstDuplicateId seen l = none ↔ (l.Nodup ∧ ∀ x ∈ l, x ∉ seen) := by
  intro seen l
  induction l generalizing seen with
  | nil => simp [firstDuplicateId]
  | cons id rest ih =>
    simp only [firstDuplicateId]
    by_cases h : seen.contains id
    · simp only [h, if_true]
      simp at h
      constructor
      · intro hcontra; exact absurd hcontra (by simp)
      · intro ⟨_, hall⟩
        exact absurd h (hall id (by simp))
    · simp only [h, Bool.false_eq_true, if_false]
      rw [ih (id :: seen)]
      simp at h
      constructor
      · rintro ⟨hnodup, hall⟩
        refine ⟨List.nodup_cons.mpr ⟨?_, hnodup⟩, ?_⟩
        · intro hmem
          exact (hall id hmem) (by simp)
        · intro x hx
          rcases List.mem_cons.mp hx with hx | hx
          · subst hx; exact h
          · have := hall x hx
            intro hcontra
            exact this (by simp [hcontra])
      · rintro ⟨hnodup, hall⟩
        rcases List.nodup_cons.mp hnodup with ⟨hid, hrest⟩
        refine ⟨hrest, ?_⟩
        intro x hx
        simp only [List.mem_cons]
        push_neg
        refine ⟨?_, hall x (by simp [hx])⟩
        intro hcontra
        subst hcontra
        exact hid hx

/-- C9 (amended): configuration validation succeeds iff the base directory
starts with `/`, the profile ids are pairwise distinct, and `git --version`
succeeds; the presence of `bash` is not checked. -/
theorem configuration_validate_checks :
    ∀ (cfg : Configuration) (env : ValidationEnv),
      validateConfiguration cfg env = .ok () ↔
        (pathStartsWithRoot cfg.baseDirectory = true ∧
          (cfg.deploymentConfigs.map (·.id)).Nodup ∧
          env.gitVersionOk = true) := by
  intro cfg env
  unfold validateConfiguration
  by_cases hbase : pathStartsWithRoot cfg.baseDirectory
  · simp only [hbase, Bool.not_true, Bool.false_eq_true, if_false]
    cases hdup : firstDuplicateId [] (cfg.deploymentConfigs.map (·.id)) with
    | some id =>
      have : ¬ (cfg.deploymentConfigs.map (·.id)).Nodup := by
        intro hnodup
        have := (firstDuplicateId_eq_none [] (cfg.deploymentConfigs.map (·.id))).mpr
          ⟨hnodup, by simp⟩
        rw [this] at hdup
        exact absurd hdup (by simp)
      simp [this]
    | none =>
      have hnodup := (firstDuplicateId_eq_none [] (cfg.deploymentConfigs.map (·.id))).mp hdup
      by_cases hgit : env.gitVersionOk
      · simp [hgit, hnodup.1, hbase]
      · simp [hgit, hnodup.1, hbase]
  · simp only [hbase]
    simp [hbase]

/-- C9 counterexample: a configuration with an absolute base directory and
unique profile ids passes validation even on a host where `bash` is absent
(only `git` is checked), refuting the claim that a missing `bash` makes
validation fail. -/
theorem configuration_validate_no_bash_check :
    validateConfiguration
        { bindHost := "0.0.0.0:6666", baseDirectory := "/srv/deploy",
          githubAppId := 1, githubAppPemKeyPath := "/key.pem",
          retainedReleases := 2, deploymentConfigs := [] }
        { gitVersionOk := true, bashPresent := false } = .ok () ∧
    (ValidationEnv.bashPresent
        { gitVersionOk := true, bashPresent := false }) = false := by
  constructor
  · rfl
  · rfl

/- ## Release store and retention
(src/easydep-server/src/accessor/deployment_accessor.rs,
 src/easydep-server/src/executor/deploy_publish_executor.rs) -/

/-- The descending-by-id order used by
`DeploymentAccessor::get_release_directories_for_profile`:
`sort_by(|left, right| right.1.cmp(&left.1))`. -/
def releaseIdDescending (left right : String × Nat) : Prop :=
  right.2 ≤ left.2

instance : DecidableRel releaseIdDescending := fun l r =>
  inferInstanceAs (Decidable (r.2 ≤ l.2))

instance : IsTotal (String × Nat) releaseIdDescending :=
  ⟨fun a b => by
    unfold releaseIdDescending
    exact Nat.le_total b.2 a.2⟩

instance : IsTrans (String × Nat) releaseIdDescending :=
  ⟨fun _ _ _ hab hbc => Nat.le_trans hbc hab⟩

/-- Embedding of the sorting step at the end of
`DeploymentAccessor::get_release_directories_for_profile`: the enumerated
`(path, parsed id)` entries sorted descending by id. -/
def sortReleasesDescending (entries : List (String × Nat)) : List (String × Nat) :=
  entries.insertionSort releaseIdDescending

/-- Embedding of `deploy_publish_executor.rs::discard_oldest_release`: when
the retention count covers the stored releases nothing is removed, otherwise
the last entry of the descending list (the smallest id) is selected for
`remove_dir_all`. -/
def discardOldestRelease (retainedReleases : Nat)
    (releaseDirectories : List (String × Nat)) : Option (String × Nat) :=
  if releaseDirectories.length ≤ retainedReleases then
    none
  else
    releaseDirectories.getLast?

/-- The retention step of `publish_deployment`: `discard_oldest_release` is
only invoked when `retained_releases > 1`, and it operates on the
enumeration result (sorted descending by id).  The returned value is the
directory passed to `remove_dir_all`, `none` when no removal happens. -/
def publishRetentionRemoval (retainedReleases : Nat)
    (enumeratedEntries : List (String × Nat)) : Option (String × Nat) :=
  if 1 < retainedReleases then
    discardOldestRelease retainedReleases (sortReleasesDescending enumeratedEntries)
  else
    none

/-- Helper: in a list sorted descending by id, the last element exists for a
nonempty list, belongs to the list, and its id is the minimum. -/
theorem sorted_descending_getLast?_min :
    ∀ l : List (String × Nat), l.Sorted releaseIdDescending →
      ∀ y, l.getLast? = some y → y ∈ l ∧ ∀ x ∈ l, y.2 ≤ x.2 := by
  intro l
  induction l with
  | nil => intro _ y h; simp at h
  | cons a t ih =>
    intro hsorted y hlast
    rcases List.sorted_cons.mp hsorted with ⟨ha, ht⟩
    cases t with
    | nil =>
      simp at hlast
      subst hlast
      simp
    | cons b t2 =>
      rw [List.getLast?_cons_cons] at hlast
      obtain ⟨hmem, hmin⟩ := ih ht y hlast
      refine ⟨List.mem_cons_of_mem a hmem, ?_⟩
      intro x hx
      rcases List.mem_cons.mp hx with hx | hx
      · subst hx
        exact Nat.le_trans (hmin _ hmem) (ha y hmem)
      · exact hmin x hx

/-- C4: during a publish a release directory is selected for removal iff
`retained_releases > 1` and the enumerated directory count exceeds
`retained_releases`; at most one directory is selected (the result is an
`Option`), the selected directory is one of the enumerated entries and has
the smallest parsed id, and with `retained_releases = 1` no publish ever
prunes. -/
theorem publish_prunes_only_oldest_beyond_retention :
    (∀ (retained : Nat) (entries : List (String × Nat)),
      ((publishRetentionRemoval retained entries).isSome = true ↔
        (1 < retained ∧ retained < entries.length))) ∧
    (∀ (retained : Nat) (entries : List (String × Nat)) (removed : String × Nat),
      publishRetentionRemoval retained entries = some removed →
        removed ∈ entries ∧ ∀ e ∈ entries, removed.2 ≤ e.2) ∧
    (∀ entries : List (String × Nat), publishRetentionRemoval 1 entries = none) := by
  refine ⟨?_, ?_, ?_⟩
  · intro retained entries
    have hlen : (sortReleasesDescending entries).length = entries.length := by
      unfold sortReleasesDescending
      exact List.length_insertionSort _ _
    unfold publishRetentionRemoval discardOldestRelease
    by_cases h1 : 1 < retained
    · simp only [h1, if_true, true_and]
      rw [hlen]
      by_cases h2 : entries.length ≤ retained
      · simp [h2, Nat.not_lt.mpr h2]
      · have hlt : retained < entries.length := Nat.not_le.mp h2
        have hne : sortReleasesDescending entries ≠ [] := by
          intro hcontra
          rw [hcontra] at hlen
          simp at hlen
          omega
        simp only [h2, if_false]
        rw [List.getLast?_isSome]
        simp [hne, hlt]
    · simp [h1]
  · intro retained entries removed h
    unfold publishRetentionRemoval discardOldestRelease at h
    by_cases h1 : 1 < retained
    · simp only [h1, if_true] at h
      by_cases h2 : (sortReleasesDescending entries).length ≤ retained
      · simp [h2] at h
      · simp only [h2, if_false] at h
        have hsorted : (sortReleasesDescending entries).Sorted releaseIdDescending :=
          List.sorted_insertionSort releaseIdDescending entries
        obtain ⟨hmem, hmin⟩ := sorted_descending_getLast?_min _ hsorted removed h
        have hperm : (sortReleasesDescending entries).Perm entries :=
          List.perm_insertionSort releaseIdDescending entries
        refine ⟨hperm.mem_iff.mp hmem, ?_⟩
        intro e he
        exact hmin e (hperm.mem_iff.mpr he)
    · simp [h1] at h
  · intro entries
    unfold publishRetentionRemoval
    simp

/-- Witness for C4 at a concrete input: with `retained_releases = 2` and
three stored releases `{100, 101, 102}`, the selected directory is the one
with the smallest id, 100. -/
theorem publish_prunes_only_oldest_beyond_retention_witness :
    ("releases/web/100", 100) ∈
        [("releases/web/102", 102), ("releases/web/100", 100), ("releases/web/101", 101)] ∧
    (∀ e ∈ [("releases/web/102", 102), ("releases/web/100", 100),
        ("releases/web/101", 101)], 100 ≤ e.2) :=
  publish_prunes_only_oldest_beyond_retention.2.1 2
    [("releases/web/102", 102), ("releases/web/100", 100), ("releases/web/101", 101)]
    ("releases/web/100", 100) (by rfl)

/- ## Action frames and the process streamer
(src/easydep-server/src/process_streamer.rs; the frame types are the
generated messages of the `crate::easydep` proto module, hence the
namespace) -/

namespace easydep

/-- Embedding of the generated `easydep::Action` enum. -/
inductive Action
  | GitClone
  | SymlinkCreate
  | InitScript
  | FinishScript
  | DeleteScript
  deriving Repr, DecidableEq

/-- Embedding of the generated `easydep::ActionStatus` enum. -/
inductive ActionStatus
  | Started
  | Running
  | CompletedSuccess
  | CompletedFailure
  deriving Repr, DecidableEq

/-- Embedding of the generated `easydep::LogType` enum. -/
inductive LogType
  | Stdout
  | Stderr
  deriving Repr, DecidableEq

/-- Embedding of the generated `easydep::LogEntry` message. -/
structure LogEntry where
  streamType : LogType
  content : String
  deriving Repr, DecidableEq

/-- Embedding of the generated `easydep::ExecutedActionEntry` message. -/
structure ExecutedActionEntry where
  releaseId : Nat
  currentAction : Action
  actionStatus : ActionStatus
  actionLogEntry : Option LogEntry
  deriving Repr, DecidableEq

/-- One item sent into the output channel of type
`Sender<Result<ExecutedActionEntry, Status>>`: an action entry or a gRPC
error status. -/
inductive ChannelItem
  | entry (e : ExecutedActionEntry)
  | errorStatus (msg : String)
  deriving Repr, DecidableEq

/-- Projection of a channel item to its action entry, dropping error
statuses. -/
def ChannelItem.entryOf : ChannelItem → Option ExecutedActionEntry
  | .entry e => some e
  | .errorStatus _ => none

end easydep

/-- Embedding of `ProcessStreamer::construct_log_entry`: wrap a captured log
line into a `LogEntry` and pass a capture error through. -/
def constructLogEntry (capturedLogLine : Except String String)
    (streamType : easydep.LogType) : Except String easydep.LogEntry :=
  capturedLogLine.map fun line => { streamType := streamType, content := line }

/-- Embedding of `ProcessStreamer::construct_executed_action_entry`: build
the channel item for an action status and optional log entry; a failed log
entry becomes an internal error status. -/
def constructExecutedActionEntry (releaseId : Nat)
    (currentAction : easydep.Action) (status : easydep.ActionStatus)
    (logEntry : Option (Except String easydep.LogEntry)) :
    easydep.ChannelItem :=
  match logEntry with
  | none =>
    .entry { releaseId := releaseId, currentAction := currentAction,
             actionStatus := status, actionLogEntry := none }
  | some (.ok logEntry) =>
    .entry { releaseId := releaseId, currentAction := currentAction,
             actionStatus := status, actionLogEntry := some logEntry }
  | some (.error err) => .errorStatus err

/-- Display of a Rust `ExitStatus` for a process that exited with a code. -/
def exitStatusDisplay (exitCode : Int) : String :=
  "exit status: " ++ toString exitCode

/-- The observable behaviour of one spawned child process as consumed by
`ProcessStreamer::await_child_and_stream`: whether the stdout/stderr handles
are present on the child, the merged arrival-order sequence of line reads
(each tagged with its stream and either a decoded line or a read error), and
the result of awaiting the process (an exit code, or an i/o error).  The
channel is modelled as always accepting (a live client); the concurrent
stdout/stderr interleaving is resolved by taking the merged arrival order as
input. -/
structure ChildRun where
  stdoutAvailable : Bool
  stderrAvailable : Bool
  mergedLines : List (easydep.LogType × Except String String)
  waitResult : Except String Int
  deriving Repr

/-- Embedding of `ProcessStreamer::await_child_and_stream`: send the
*Started* item, stream one *Running* item per captured line, then after the
process has been awaited send the terminal item carrying the synthetic
`Process finished with <exit-status>` line, *CompletedSuccess* exactly when
the exit status is 0; return success iff the exit status is 0. -/
def awaitChildAndStream (action : easydep.Action) (releaseId : Nat)
    (run : ChildRun) : List easydep.ChannelItem × Except String Unit :=
  let startedItem := constructExecutedActionEntry releaseId action .Started none
  if !run.stdoutAvailable then
    ([startedItem], .error "Child process has no stdout available")
  else if !run.stderrAvailable then
    ([startedItem], .error "Child process has no stderr available")
  else
    let runningItems := run.mergedLines.map fun capturedLine =>
      constructExecutedActionEntry releaseId action .Running
        (some (constructLogEntry capturedLine.2 capturedLine.1))
    match run.waitResult with
    | .ok exitCode =>
      let logEntry := constructLogEntry
        (.ok ("Process finished with " ++ exitStatusDisplay exitCode)) .Stdout
      let actionStatus := if exitCode = 0 then
          easydep.ActionStatus.CompletedSuccess
        else
          easydep.ActionStatus.CompletedFailure
      let actionItem :=
        constructExecutedActionEntry releaseId action actionStatus (some logEntry)
      (startedItem :: (runningItems ++ [actionItem]),
        if exitCode = 0 then
          .ok ()
        else
          .error "process did not complete with an successful exit status")
    | .error err =>
      let actionItem := constructExecutedActionEntry releaseId action
        .CompletedFailure
        (some (.error ("Error awaiting process for current action: " ++ err)))
      (startedItem :: (runningItems ++ [actionItem]), .error err)

/- ## Theorems for C1 -/

/-- C1: whenever the spawned child has its pipes and can be awaited, the
frame sequence emitted by the process streamer is exactly one *Started*
frame first, then one *Running* frame per successfully captured log line in
arrival order, then exactly one terminal frame — *CompletedSuccess* iff the
exit status is 0, *CompletedFailure* otherwise — carrying the synthetic
`Process finished with <exit-status>` line, with no frame after it; and the
return value is success iff the exit status is 0. -/
theorem process_streamer_frame_sequence :
    ∀ (action : easydep.Action) (releaseId : Nat) (run : ChildRun)
      (exitCode : Int),
      run.stdoutAvailable = true → run.stderrAvailable = true →
      run.waitResult = .ok exitCode →
      ((awaitChildAndStream action releaseId run).1.filterMap
          easydep.ChannelItem.entryOf =
        { releaseId := releaseId, currentAction := action,
          actionStatus := .Started, actionLogEntry := none }
          :: ((run.mergedLines.filterMap fun capturedLine =>
                match capturedLine.2 with
                | .ok line =>
                  some { releaseId := releaseId, currentAction := action,
                         actionStatus := .Running,
                         actionLogEntry := some { streamType := capturedLine.1,
                                                  content := line } }
                | .error _ => none)
            ++ [{ releaseId := releaseId, currentAction := action,
                  actionStatus := if exitCode = 0 then .CompletedSuccess
                    else .CompletedFailure,
                  actionLogEntry := some { streamType := .Stdout,
                                           content := "Process finished with "
                                             ++ exitStatusDisplay exitCode } }])) ∧
      ((awaitChildAndStream action releaseId run).2 = .ok () ↔ exitCode = 0) := by
  intro action releaseId run exitCode hout herr hwait
  unfold awaitChildAndStream
  rw [hout, herr, hwait]
  simp only [Bool.not_true, Bool.false_eq_true, if_false]
  have hrun : ∀ capturedLine : easydep.LogType × Except String String,
      easydep.ChannelItem.entryOf (constructExecutedActionEntry releaseId action
        .Running (some (constructLogEntry capturedLine.2 capturedLine.1))) =
      (match capturedLine.2 with
        | .ok line =>
          some { releaseId := releaseId, currentAction := action,
                 actionStatus := easydep.ActionStatus.Running,
                 actionLogEntry := some { streamType := capturedLine.1,
                                          content := line } }
        | .error _ => none) := by
    intro capturedLine
    cases h2 : capturedLine.2 with
    | ok line => simp [constructLogEntry, constructExecutedActionEntry,
        easydep.ChannelItem.entryOf, h2, Except.map]
    | error err => simp [constructLogEntry, constructExecutedActionEntry,
        easydep.ChannelItem.entryOf, h2, Except.map]
  constructor
  · by_cases hzero : exitCode = 0
    · simp only [hzero, if_true]
      simp only [List.filterMap_cons, List.filterMap_append, List.filterMap_map]
      simp [constructExecutedActionEntry, easydep.ChannelItem.entryOf,
        constructLogEntry, Except.map, Function.comp]
      exact List.filterMap_congr fun a _ => hrun a
    · simp only [hzero, if_false]
      simp only [List.filterMap_cons, List.filterMap_append, List.filterMap_map]
      simp [constructExecutedActionEntry, easydep.ChannelItem.entryOf,
        constructLogEntry, Except.map, Function.comp, hzero]
      exact List.filterMap_congr fun a _ => hrun a
  · by_cases hzero : exitCode = 0
    · simp [hzero]
    · simp [hzero]

/-- Witness for C1 at a concrete input: a child with two captured lines and
exit status 0 yields Started, two Running frames, and a CompletedSuccess
terminal frame, and the streamer returns success. -/
theorem process_streamer_frame_sequence_witness :
    ((awaitChildAndStream .GitClone 7
        { stdoutAvailable := true, stderrAvailable := true,
          mergedLines := [(.Stdout, .ok "Cloning..."), (.Stderr, .ok "warn")],
          waitResult := .ok 0 }).1.filterMap easydep.ChannelItem.entryOf =
      { releaseId := 7, currentAction := .GitClone,
        actionStatus := .Started, actionLogEntry := none }
        :: ((([(.Stdout, .ok "Cloning..."), (.Stderr, .ok "warn")] :
                List (easydep.LogType × Except String String)).filterMap
                fun capturedLine =>
              match capturedLine.2 with
              | .ok line =>
                some { releaseId := 7, currentAction := easydep.Action.GitClone,
                       actionStatus := .Running,
                       actionLogEntry := some { streamType := capturedLine.1,
                                                content := line } }
              | .error _ => none)
          ++ [{ releaseId := 7, currentAction := .GitClone,
                actionStatus := if (0 : Int) = 0 then .CompletedSuccess
                  else .CompletedFailure,
                actionLogEntry := some { streamType := .Stdout,
                                          content := "Process finished with "
                                            ++ exitStatusDisplay 0 } }])) ∧
    ((awaitChildAndStream .GitClone 7
        { stdoutAvailable := true, stderrAvailable := true,
          mergedLines := [(.Stdout, .ok "Cloning..."), (.Stderr, .ok "warn")],
          waitResult := .ok 0 }).2 = .ok () ↔ (0 : Int) = 0) :=
  process_streamer_frame_sequence .GitClone 7
    { stdoutAvailable := true, stderrAvailable := true,
      mergedLines := [(.Stdout, .ok "Cloning..."), (.Stderr, .ok "warn")],
      waitResult := .ok 0 } 0 rfl rfl rfl

/- ## Global action slot and the start RPC
(src/easydep-server/src/accessor/deploy_action_accessor.rs,
 src/easydep-server/src/accessor/deployment_accessor.rs,
 src/easydep-server/src/executor/deploy_executor.rs,
 src/easydep-server/src/service/deployment_service.rs) -/

/-- Embedding of `octocrab::models::repos::Release` (the fields the agent
reads). -/
structure Release where
  id : Nat
  tagName : String
  targetCommitish : String
  deriving Repr, DecidableEq

/-- Embedding of `Configuration::get_deployment_configuration`: find the
profile with the requested id. -/
def Configuration.getDeploymentConfiguration (cfg : Configuration)
    (id : String) : Option DeploymentConfiguration :=
  cfg.deploymentConfigs.find? fun config => config.id == id

/-- Path arithmetic of `DeploymentAccessor::get_releases_directory`. -/
def getReleasesDirectory (baseDirectory : String)
    (profile : DeploymentConfiguration) : String :=
  baseDirectory ++ "/releases/" ++ profile.target

/-- Path arithmetic of `DeploymentAccessor::get_release_directory`. -/
def getReleaseDirectory (baseDirectory : String)
    (profile : DeploymentConfiguration) (releaseId : Nat) : String :=
  getReleasesDirectory baseDirectory profile ++ "/" ++ toString releaseId

/-- Path arithmetic of `DeploymentAccessor::get_current_release_directory`. -/
def getCurrentReleaseDirectory (baseDirectory : String)
    (profile : DeploymentConfiguration) : String :=
  baseDirectory ++ "/current-" ++ profile.target

/-- Embedding of `deploy_executor.rs::DeployExecutor` (the fields the
verified operations read; the access token and accessors are environment). -/
structure DeployExecutor where
  release : Release
  deploymentDirectory : String
  deploymentConfiguration : DeploymentConfiguration
  deriving Repr, DecidableEq

/-- Embedding of `deploy_action_accessor.rs::CurrentAction`: the single
global action slot holds exactly one of these three variants. -/
inductive CurrentAction
  | Idle
  | RollingBack (release : Release)
  | Executing (executor : DeployExecutor)
  deriving Repr, DecidableEq

/-- Embedding of `std::mem::discriminant` on `CurrentAction`: the variant
tag, ignoring any payload. -/
def CurrentAction.discriminant : CurrentAction → Nat
  | .Idle => 0
  | .RollingBack _ => 1
  | .Executing _ => 2

/-- Embedding of
`DeploymentStatusAccessor::compare_and_set_action_by_variant`, as a function
of the value held by the mutex-protected cell: compare the discriminant of
the expected action with the discriminant of the current action; on a match
store the new action and return true, otherwise leave the cell unchanged and
return false. -/
def compareAndSetActionByVariant (current expected newAction : CurrentAction) :
    CurrentAction × Bool :=
  if expected.discriminant = current.discriminant then
    (newAction, true)
  else
    (current, false)

/-- Embedding of the generated `easydep::DeployStartRequest` message. -/
structure DeployStartRequest where
  releaseId : Nat
  profile : String
  deriving Repr, DecidableEq

/-- The GitHub collaborator's answers for one start request: the release
lookup result and the result of reading the app installation token. -/
structure GitHubEnv where
  releaseLookup : Except String Release
  tokenLookup : Except String Unit
  deriving Repr

/-- The result of a `start_deployment` call towards the client. -/
inductive StartOutcome
  | stream
  | failedPrecondition (msg : String)
  | internalErr (msg : String)
  deriving Repr, DecidableEq

/-- Embedding of `DeploymentServiceImpl::start_deployment`: resolve the
profile, the release and the clone token, check `extend_only` and the branch
filter, then claim the global slot with a compare-and-set from *Idle* to
*Executing*; only on a successful claim is the phase-executor task spawned.
Returns the slot value after the call, the outcome, and whether a task was
spawned. -/
def startDeployment (config : Configuration) (github : GitHubEnv)
    (slot : CurrentAction) (request : DeployStartRequest) :
    CurrentAction × StartOutcome × Bool :=
  match config.getDeploymentConfiguration request.profile with
  | none =>
    (slot, .failedPrecondition "requested deployment config is not registered",
      false)
  | some deployConfig =>
    match github.releaseLookup with
    | .error err =>
      (slot, .failedPrecondition ("unable to find requested release: " ++ err),
        false)
    | .ok release =>
      match github.tokenLookup with
      | .error err =>
        (slot, .internalErr ("unable to get github access token: " ++ err),
          false)
      | .ok _ =>
        if deployConfig.extendOnly then
          (slot,
            .failedPrecondition
              "the requested deployment profile cannot be used directly",
            false)
        else if !(isBranchAllowedToUseConfig deployConfig
            release.targetCommitish) then
          (slot,
            .failedPrecondition
              "branch is not allowed to use requested deployment configuration",
            false)
        else
          let deploymentExecutor : DeployExecutor :=
            { release := release,
              deploymentDirectory :=
                getReleaseDirectory config.baseDirectory deployConfig release.id,
              deploymentConfiguration := deployConfig }
          let casResult := compareAndSetActionByVariant slot .Idle
            (.Executing deploymentExecutor)
          if casResult.2 then
            (casResult.1, .stream, true)
          else
            (casResult.1,
              .failedPrecondition
                "another action was started first, try again afterwards",
              false)

/- ## Theorems for C2 -/

/-- C2: the global slot holds at most one of an *Executing* deployment or a
*RollingBack* action; a start issued while the slot is not *Idle* (given the
collaborator token read succeeds, the only path that errors for a different
reason) returns *FailedPrecondition*, spawns no task and leaves the slot
unchanged; and the compare-and-set compares only the variant tag: it ignores
the expected action's payload and succeeds exactly when the variant tags
match. -/
theorem start_deployment_slot_exclusion :
    (∀ a : CurrentAction,
      ¬((∃ d, a = .Executing d) ∧ (∃ r, a = .RollingBack r))) ∧
    (∀ (config : Configuration) (github : GitHubEnv) (slot : CurrentAction)
        (request : DeployStartRequest),
      slot.discriminant ≠ CurrentAction.Idle.discriminant →
      github.tokenLookup = .ok () →
      ((∃ msg, (startDeployment config github slot request).2.1 =
          .failedPrecondition msg) ∧
        (startDeployment config github slot request).1 = slot ∧
        (startDeployment config github slot request).2.2 = false)) ∧
    (∀ (current expected expected2 newAction : CurrentAction),
      expected.discriminant = expected2.discriminant →
      compareAndSetActionByVariant current expected newAction =
        compareAndSetActionByVariant current expected2 newAction) ∧
    (∀ (current expected newAction : CurrentAction),
      (compareAndSetActionByVariant current expected newAction).2 = true ↔
        expected.discriminant = current.discriminant) := by
  refine ⟨?_, ?_, ?_, ?_⟩
  · rintro a ⟨⟨d, hd⟩, ⟨r, hr⟩⟩
    subst hd
    exact absurd hr (by simp)
  · intro config github slot request hslot htoken
    have hcas : ∀ newAction, compareAndSetActionByVariant slot .Idle newAction =
        (slot, false) := by
      intro newAction
      unfold compareAndSetActionByVariant
      have : CurrentAction.Idle.discriminant ≠ slot.discriminant :=
        fun hcontra => hslot hcontra.symm
      simp [this]
    unfold startDeployment
    cases hcfg : config.getDeploymentConfiguration request.profile with
    | none => simp
    | some deployConfig =>
      cases hrel : github.releaseLookup with
      | error err => simp
      | ok release =>
        rw [htoken]
        by_cases hext : deployConfig.extendOnly
        · simp only [hext, if_true]
          simp
        · simp only [hext, if_false, Bool.false_eq_true]
          by_cases hbranch : isBranchAllowedToUseConfig deployConfig
              release.targetCommitish
          · simp only [hbranch, Bool.not_true, Bool.false_eq_true, if_false]
            rw [hcas]
            simp
          · simp only [Bool.not_eq_true] at hbranch
            simp only [hbranch, Bool.not_false, if_true]
            simp
  · intro current expected expected2 newAction h
    unfold compareAndSetActionByVariant
    rw [h]
  · intro current expected newAction
    unfold compareAndSetActionByVariant
    by_cases h : expected.discriminant = current.discriminant
    · simp [h]
    · simp [h]

/-- A concrete profile used by the concrete-input theorems. -/
def exampleProfile : DeploymentConfiguration :=
  { id := "p1", target := "web", extendOnly := false,
    sourceRepoOwner := "o", sourceRepoName := "r",
    allowedRepoBranches := [], deniedRepoBranches := [],
    revisionFileName := none, extendedScriptConfigurations := [],
    symlinks := [] }

/-- A concrete agent configuration used by the concrete-input theorems. -/
def exampleConfiguration : Configuration :=
  { bindHost := "h", baseDirectory := "/srv", githubAppId := 1,
    githubAppPemKeyPath := "/k.pem", retainedReleases := 2,
    deploymentConfigs := [exampleProfile] }

/-- A concrete release used by the concrete-input theorems. -/
def exampleRelease : Release :=
  { id := 100, tagName := "v1", targetCommitish := "main" }

/-- Witness for C2 at a concrete input: with the slot already holding a
rollback, a start request for a registered profile returns a failed
precondition, spawns nothing and leaves the slot unchanged. -/
theorem start_deployment_slot_exclusion_witness :
    (∃ msg,
      (startDeployment exampleConfiguration
        { releaseLookup := .ok exampleRelease, tokenLookup := .ok () }
        (.RollingBack { id := 99, tagName := "v0", targetCommitish := "main" })
        { releaseId := 100, profile := "p1" }).2.1 =
          .failedPrecondition msg) ∧
    (startDeployment exampleConfiguration
        { releaseLookup := .ok exampleRelease, tokenLookup := .ok () }
        (.RollingBack { id := 99, tagName := "v0", targetCommitish := "main" })
        { releaseId := 100, profile := "p1" }).1 =
      .RollingBack { id := 99, tagName := "v0", targetCommitish := "main" } ∧
    (startDeployment exampleConfiguration
        { releaseLookup := .ok exampleRelease, tokenLookup := .ok () }
        (.RollingBack { id := 99, tagName := "v0", targetCommitish := "main" })
        { releaseId := 100, profile := "p1" }).2.2 = false :=
  start_deployment_slot_exclusion.2.1 exampleConfiguration
    { releaseLookup := .ok exampleRelease, tokenLookup := .ok () }
    (.RollingBack { id := 99, tagName := "v0", targetCommitish := "main" })
    { releaseId := 100, profile := "p1" } (by decide) rfl

/- ## Script executor (src/easydep-server/src/executor/script_executor.rs) -/

/-- Embedding of `script_executor.rs::ScriptType`. -/
inductive ScriptType
  | Init
  | Publish
  | Delete
  deriving Repr, DecidableEq

/-- Embedding of `script_executor.rs::get_script_path`:
`.easydep/<configuration id>/<phase name>.sh`. -/
def getScriptPath (scriptConfiguration scriptActionName : String) : String :=
  ".easydep/" ++ scriptConfiguration ++ "/" ++ scriptActionName ++ ".sh"

/-- The filesystem and process behaviour observed for one lifecycle script,
keyed by its path relative to the checkout: the existence check can fail, the
file can be absent, spawning can fail, or the script runs with an observable
child behaviour. -/
inductive ScriptBehavior
  | statError
  | absent
  | spawnError (err : String)
  | runs (run : ChildRun)

/-- Whether the script file exists and an execution is attempted for this
behaviour. -/
def ScriptBehavior.isAttempted : ScriptBehavior → Bool
  | .spawnError _ => true
  | .runs _ => true
  | _ => false

/-- The script environment of one phase: the behaviour of every script
path. -/
structure ScriptsEnv where
  behavior : String → ScriptBehavior

/-- Embedding of `script_executor.rs::execute_script` (assumes the script
file exists): spawn `bash <path>`; on spawn failure send an error status and
fail; otherwise stream the child through the process streamer and, if the
streamer fails (non-zero exit or wait error), send an error status and
propagate the failure. -/
def executeScript (release : Release) (scriptPath : String)
    (scriptAction : easydep.Action) (env : ScriptsEnv) :
    List easydep.ChannelItem × Except String Unit :=
  match env.behavior scriptPath with
  | .spawnError err =>
    ([.errorStatus ("unable to spawn process to execute lifecycle script: "
        ++ err)],
      .error err)
  | .runs run =>
    let streamed := awaitChildAndStream scriptAction release.id run
    match streamed.2 with
    | .ok _ => (streamed.1, .ok ())
    | .error err =>
      (streamed.1 ++ [.errorStatus
          ("issue while waiting for script to complete: " ++ err)],
        .error err)
  | _ => ([], .ok ())

/-- Embedding of `script_executor.rs::check_and_execute_script`: a failed
existence check or an absent file is silently skipped (Ok); an existing
script is executed, and on failure one more error status is sent and the
error is propagated to the caller inside `execute_scripts`. -/
def checkAndExecuteScript (release : Release) (scriptPath : String)
    (scriptAction : easydep.Action) (env : ScriptsEnv) :
    List easydep.ChannelItem × Except String Unit :=
  match env.behavior scriptPath with
  | .statError => ([], .ok ())
  | .absent => ([], .ok ())
  | _ =>
    let executed := executeScript release scriptPath scriptAction env
    match executed.2 with
    | .ok _ => (executed.1, .ok ())
    | .error err =>
      (executed.1 ++ [.errorStatus ("unable to execute script at " ++ scriptPath
          ++ ": " ++ err)],
        .error "issue executing script")

/-- The extended-scripts loop of `execute_scripts`: run each extended
configuration's script in declared order; when one fails, stop immediately
(the third component reports the stop; nothing of the remaining list is
touched).  The second component lists the script paths that were attempted,
an observation added for the theorems. -/
def runExtendedScripts (release : Release) (scriptAction : easydep.Action)
    (scriptActionName : String) (env : ScriptsEnv) :
    List String → List easydep.ChannelItem × List String × Bool
  | [] => ([], [], false)
  | extendedConfiguration :: rest =>
    let scriptPath := getScriptPath extendedConfiguration scriptActionName
    let attemptedHere := if (env.behavior scriptPath).isAttempted then
        [scriptPath]
      else
        []
    let checked := checkAndExecuteScript release scriptPath scriptAction env
    match checked.2 with
    | .error _ => (checked.1, attemptedHere, true)
    | .ok _ =>
      let next := runExtendedScripts release scriptAction scriptActionName env
        rest
      (checked.1 ++ next.1, attemptedHere ++ next.2.1, next.2.2)

/-- The action tag and phase name for a script type (the `match` at the top
of `execute_scripts`). -/
def scriptTypeAction : ScriptType → easydep.Action × String
  | .Init => (.InitScript, "init")
  | .Publish => (.FinishScript, "publish")
  | .Delete => (.DeleteScript, "delete")

/-- Embedding of `script_executor.rs::execute_scripts`: extended scripts run
first in declared order; a failing extended script stops the loop and skips
the main script; the main script's result is discarded (`.ok()`).  In the
source the function returns `()` — no failure reaches the phase executor.
The Lean embedding returns the channel items plus the list of attempted
script paths as an observation. -/
def executeScripts (release : Release) (scriptType : ScriptType)
    (deploymentConfiguration : DeploymentConfiguration) (env : ScriptsEnv) :
    List easydep.ChannelItem × List String :=
  let actionPair := scriptTypeAction scriptType
  let extendedRun := runExtendedScripts release actionPair.1 actionPair.2 env
    deploymentConfiguration.extendedScriptConfigurations
  if extendedRun.2.2 then
    (extendedRun.1, extendedRun.2.1)
  else
    let mainScriptPath := getScriptPath deploymentConfiguration.id actionPair.2
    let mainAttempted := if (env.behavior mainScriptPath).isAttempted then
        [mainScriptPath]
      else
        []
    let mainRun := checkAndExecuteScript release mainScriptPath actionPair.1 env
    (extendedRun.1 ++ mainRun.1, extendedRun.2.1 ++ mainAttempted)

/- ## Publish phase (src/easydep-server/src/executor/deploy_publish_executor.rs) -/

/-- Environment for one publish phase run: whether the `current` symlink
swap succeeds, the script environment, and the release-store enumeration
result consulted by the retention trim. -/
structure PublishEnv where
  symlinkSwapOk : Bool
  scripts : ScriptsEnv
  enumeratedEntries : Except String (List (String × Nat))

/-- Embedding of `deploy_publish_executor.rs::publish_deployment`: swap the
`current` symlink (abort with an error status on failure), run the publish
scripts (whose outcome is not consulted), then — only when
`retained_releases > 1` — run the retention trim.  Returns the channel
items, the directory removed by the trim (if any), and whether the phase
reached its post-script work. -/
def publishDeployment (release : Release)
    (globalConfiguration : Configuration)
    (deploymentConfiguration : DeploymentConfiguration) (env : PublishEnv) :
    List easydep.ChannelItem × Option (String × Nat) × Bool :=
  if !env.symlinkSwapOk then
    ([.errorStatus "unable to symlink release directory"], none, false)
  else
    let scriptsRun := executeScripts release .Publish deploymentConfiguration
      env.scripts
    let removed :=
      if 1 < globalConfiguration.retainedReleases then
        match env.enumeratedEntries with
        | .error _ => none
        | .ok entries =>
          publishRetentionRemoval globalConfiguration.retainedReleases entries
      else
        none
    (scriptsRun.1, removed, true)

/- ## Theorems for C5 -/

/-- A deployment profile whose extended configuration `base` provides the
failing publish script of the C5 scenario. -/
def extendedFailingProfile : DeploymentConfiguration :=
  { id := "p1", target := "web", extendOnly := false,
    sourceRepoOwner := "o", sourceRepoName := "r",
    allowedRepoBranches := [], deniedRepoBranches := [],
    revisionFileName := none, extendedScriptConfigurations := ["base"],
    symlinks := [] }

/-- A child process that exits with status 1 and produces no output. -/
def failingChildRun : ChildRun :=
  { stdoutAvailable := true, stderrAvailable := true, mergedLines := [],
    waitResult := .ok 1 }

/-- A script environment in which only the extended `base` publish script
exists, and it fails. -/
def failingScriptsEnv : ScriptsEnv :=
  { behavior := fun path =>
      if path = getScriptPath "base" "publish" then .runs failingChildRun
      else .absent }

/-- C5 counterexample: with the extended `base` publish script failing (exit
status 1), the script executor stops — only the extended script is attempted
and its failure is reported into the stream — but the failure does not
propagate as fatal: the publish phase still continues with its remaining
non-script work, running the retention trim and removing a directory. -/
theorem extended_script_failure_not_fatal_counterexample :
    (executeScripts exampleRelease .Publish extendedFailingProfile
        failingScriptsEnv).2 = [getScriptPath "base" "publish"] ∧
    (easydep.ChannelItem.errorStatus ("unable to execute script at "
        ++ getScriptPath "base" "publish"
        ++ ": process did not complete with an successful exit status"))
      ∈ (executeScripts exampleRelease .Publish extendedFailingProfile
        failingScriptsEnv).1 ∧
    (publishDeployment exampleRelease exampleConfiguration
        extendedFailingProfile
        { symlinkSwapOk := true, scripts := failingScriptsEnv,
          enumeratedEntries := .ok [("releases/web/102", 102),
            ("releases/web/100", 100), ("releases/web/101", 101)] }).2 =
      (some ("releases/web/100", 100), true) := by
  refine ⟨by decide, by decide, by decide⟩

/-- C5 (amended): a failing extended-profile script stops the script
executor (no later extended script and no main script is attempted) and the
failure is reported into the stream; but neither an extended-script nor a
main-script failure propagates to the phase executor — `execute_scripts`
returns unit — so the phase continues its remaining non-script work in both
cases: the publish phase's outcome beyond the stream (the retention-trim
decision and the fact that the phase reaches it) is entirely independent of
the script environment. -/
theorem script_failures_never_propagate_to_phase :
    (∀ (release : Release) (scriptAction : easydep.Action)
        (scriptActionName : String) (env : ScriptsEnv)
        (extendedConfiguration : String) (rest : List String) (err : String),
      (checkAndExecuteScript release
          (getScriptPath extendedConfiguration scriptActionName) scriptAction
          env).2 = .error err →
      runExtendedScripts release scriptAction scriptActionName env
          (extendedConfiguration :: rest) =
        ((checkAndExecuteScript release
            (getScriptPath extendedConfiguration scriptActionName) scriptAction
            env).1,
          (if (env.behavior (getScriptPath extendedConfiguration
              scriptActionName)).isAttempted then
            [getScriptPath extendedConfiguration scriptActionName]
          else
            []),
          true)) ∧
    (∀ (release : Release) (scriptType : ScriptType)
        (deploymentConfiguration : DeploymentConfiguration) (env : ScriptsEnv),
      (runExtendedScripts release (scriptTypeAction scriptType).1
          (scriptTypeAction scriptType).2 env
          deploymentConfiguration.extendedScriptConfigurations).2.2 = true →
      executeScripts release scriptType deploymentConfiguration env =
        ((runExtendedScripts release (scriptTypeAction scriptType).1
            (scriptTypeAction scriptType).2 env
            deploymentConfiguration.extendedScriptConfigurations).1,
          (runExtendedScripts release (scriptTypeAction scriptType).1
            (scriptTypeAction scriptType).2 env
            deploymentConfiguration.extendedScriptConfigurations).2.1)) ∧
    (∀ (release : Release) (globalConfiguration : Configuration)
        (deploymentConfiguration : DeploymentConfiguration) (swapOk : Bool)
        (scripts1 scripts2 : ScriptsEnv)
        (entries : Except String (List (String × Nat))),
      (publishDeployment release globalConfiguration deploymentConfiguration
          { symlinkSwapOk := swapOk, scripts := scripts1,
            enumeratedEntries := entries }).2 =
        (publishDeployment release globalConfiguration deploymentConfiguration
          { symlinkSwapOk := swapOk, scripts := scripts2,
            enumeratedEntries := entries }).2) := by
  refine ⟨?_, ?_, ?_⟩
  · intro release scriptAction scriptActionName env extendedConfiguration rest
      err h
    unfold runExtendedScripts
    simp [h]
  · intro release scriptType deploymentConfiguration env h
    unfold executeScripts
    simp [h]
  · intro release globalConfiguration deploymentConfiguration swapOk scripts1
      scripts2 entries
    unfold publishDeployment
    by_cases hswap : swapOk
    · simp [hswap]
    · simp [hswap]

/-- Witness for C5 at concrete inputs: with the failing extended `base`
script, the loop stops after it, the main script is skipped, and the publish
phase's trim outcome equals the outcome under an environment without any
script at all. -/
theorem script_failures_never_propagate_to_phase_witness :
    (runExtendedScripts exampleRelease .FinishScript "publish"
        failingScriptsEnv ["base"] =
      ((checkAndExecuteScript exampleRelease (getScriptPath "base" "publish")
          .FinishScript failingScriptsEnv).1,
        (if (failingScriptsEnv.behavior
            (getScriptPath "base" "publish")).isAttempted then
          [getScriptPath "base" "publish"]
        else
          []),
        true)) ∧
    (publishDeployment exampleRelease exampleConfiguration
        extendedFailingProfile
        { symlinkSwapOk := true, scripts := failingScriptsEnv,
          enumeratedEntries := .ok [("releases/web/102", 102),
            ("releases/web/100", 100), ("releases/web/101", 101)] }).2 =
      (publishDeployment exampleRelease exampleConfiguration
        extendedFailingProfile
        { symlinkSwapOk := true, scripts := { behavior := fun _ => .absent },
          enumeratedEntries := .ok [("releases/web/102", 102),
            ("releases/web/100", 100), ("releases/web/101", 101)] }).2 := by
  constructor
  · exact script_failures_never_propagate_to_phase.1 exampleRelease
      .FinishScript "publish" failingScriptsEnv "base" []
      "issue executing script" rfl
  · exact script_failures_never_propagate_to_phase.2.2 exampleRelease
      exampleConfiguration extendedFailingProfile true failingScriptsEnv
      { behavior := fun _ => .absent }
      (.ok [("releases/web/102", 102), ("releases/web/100", 100),
        ("releases/web/101", 101)])

/- ## Init phase
(src/easydep-server/src/executor/deploy_init_executor.rs,
 src/easydep-server/src/accessor/deploy_status_accessor.rs,
 src/easydep-server/src/executor/deploy_executor.rs) -/

/-- Embedding of `deploy_status_accessor.rs::DeployExecutionState`. -/
inductive DeployExecutionState
  | Preparing
  | Prepared
  | Publishing
  | Published
  | Deleting
  | Deleted
  deriving Repr, DecidableEq

/-- Rust `Debug` escaping of one character inside a quoted string: quotes
and backslashes are escaped (other escapes do not occur in the inputs
considered here). -/
def rustDebugEscapeChar (c : Char) : List Char :=
  if c = '"' ∨ c = '\\' then ['\\', c] else [c]

/-- Rust `Debug` formatting of a `PathBuf`/`Path`: the path text wrapped in
quotes, with quote and backslash characters escaped. -/
def rustDebugFormatPath (path : String) : String :=
  "\"" ++ String.mk (path.toList.flatMap rustDebugEscapeChar) ++ "\""

/-- Embedding of the symlink source path computed by `init_deployment`:
`format!("{deploy_directory:?}/{symlink_source}")` — the `Debug` rendering
of the deployment directory (which wraps the path in quote characters),
then a slash, then the configured source. -/
def symlinkSourcePath (deploymentDirectory : String)
    (symlinkSource : String) : String :=
  rustDebugFormatPath deploymentDirectory ++ "/" ++ symlinkSource

/-- The environment observed by one init phase run: the existence check of
the deployment directory, the result of spawning `git clone`, the clone
child behaviour, the `git rev-parse HEAD` result (outer error = spawn/await
failure; inner error = non-zero exit with the captured stderr; inner ok =
the captured stdout), whether writing the revision file succeeds, and the
script environment. -/
structure InitEnv where
  dirExistenceCheck : Except String Bool
  cloneSpawn : Except String Unit
  cloneRun : ChildRun
  revParse : Except String (Except String String)
  revWriteOk : Bool
  scripts : ScriptsEnv

/-- Where `init_deployment` returned. -/
inductive InitStage
  | abortedDirExists
  | abortedDirStatError
  | abortedCloneSpawn
  | abortedCloneWait
  | abortedRevParse
  | completed
  deriving Repr, DecidableEq

/-- Embedding of `deploy_init_executor.rs::init_deployment`: guard on the
deployment directory, clone via the process streamer (aborting the phase on
failure), write the revision file when configured (aborting only when
`git rev-parse` itself fails; write errors are logged), announce and create
each configured symlink (errors logged, not fatal), then run the init
scripts.  Returns the channel items and the stage at which the function
returned. -/
def initDeployment (release : Release) (deploymentDirectory : String)
    (deploymentConfiguration : DeploymentConfiguration) (env : InitEnv) :
    List easydep.ChannelItem × InitStage :=
  match env.dirExistenceCheck with
  | .ok true =>
    ([.errorStatus
        "deployment directory already exists, deployment was likely triggered already"],
      .abortedDirExists)
  | .error err =>
    ([.errorStatus ("unable to stat existence of deployment directory "
        ++ deploymentDirectory ++ ": " ++ err)],
      .abortedDirStatError)
  | .ok false =>
    match env.cloneSpawn with
    | .error err =>
      ([.errorStatus ("issue while spawning git clone process: " ++ err)],
        .abortedCloneSpawn)
    | .ok _ =>
      let cloneStream := awaitChildAndStream .GitClone release.id env.cloneRun
      match cloneStream.2 with
      | .error err =>
        (cloneStream.1 ++ [.errorStatus
            ("issue while waiting for git clone process to complete: " ++ err)],
          .abortedCloneWait)
      | .ok _ =>
        let revStep : List easydep.ChannelItem × Bool :=
          match deploymentConfiguration.revisionFileName with
          | none => ([], true)
          | some _ =>
            match env.revParse with
            | .ok (.ok _) => ([], true)
            | .ok (.error stderrOutput) =>
              ([.errorStatus ("unable to parse head-ref: " ++ stderrOutput)],
                false)
            | .error err =>
              ([.errorStatus ("unable to parse head-ref: " ++ err)], false)
        if !revStep.2 then
          (cloneStream.1 ++ revStep.1, .abortedRevParse)
        else
          let symlinkItems :=
            (getSymlinks deploymentConfiguration).map fun link =>
              easydep.ChannelItem.entry
                { releaseId := release.id,
                  currentAction := .SymlinkCreate,
                  actionStatus := .Running,
                  actionLogEntry := some
                    { streamType := .Stdout,
                      content := "creating symlink "
                        ++ symlinkSourcePath deploymentDirectory link.source
                        ++ " -> " ++ link.target } }
          let scriptsRun := executeScripts release .Init
            deploymentConfiguration env.scripts
          (cloneStream.1 ++ revStep.1 ++ symlinkItems ++ scriptsRun.1,
            .completed)

/-- Embedding of `DeployExecutor::prepare_deployment`: run the init phase,
then set the deployment state — unconditionally — to *Prepared*. -/
def prepareDeployment (release : Release) (deploymentDirectory : String)
    (deploymentConfiguration : DeploymentConfiguration) (env : InitEnv) :
    List easydep.ChannelItem × DeployExecutionState :=
  let initRun := initDeployment release deploymentDirectory
    deploymentConfiguration env
  (initRun.1, .Prepared)

/- ## Theorems for C3 -/

/-- The action tag of a channel item, when it carries an entry. -/
def easydep.ChannelItem.actionOf : easydep.ChannelItem → Option easydep.Action
  | .entry e => some e.currentAction
  | .errorStatus _ => none

/-- Helper: every channel item built by `construct_executed_action_entry`
carries the action it was built with, or is an error status. -/
theorem constructExecutedActionEntry_actionOf (releaseId : Nat)
    (action : easydep.Action) (status : easydep.ActionStatus)
    (logEntry : Option (Except String easydep.LogEntry)) :
    (constructExecutedActionEntry releaseId action status logEntry).actionOf =
        some action ∨
      (constructExecutedActionEntry releaseId action status logEntry).actionOf =
        none := by
  match logEntry with
  | none => left; rfl
  | some (.ok e) => left; rfl
  | some (.error e) => right; rfl

/-- Helper: every item the process streamer emits carries the action the
streamer was started with (or is an error status). -/
theorem awaitChildAndStream_actions (action : easydep.Action)
    (releaseId : Nat) (run : ChildRun) :
    ∀ item ∈ (awaitChildAndStream action releaseId run).1,
      item.actionOf = some action ∨ item.actionOf = none := by
  intro item hmem
  by_cases hso : run.stdoutAvailable
  · by_cases hse : run.stderrAvailable
    · cases hw : run.waitResult with
      | ok exitCode =>
        simp only [awaitChildAndStream, hso, hse, hw, Bool.not_true,
          Bool.false_eq_true, if_false] at hmem
        rcases List.mem_cons.mp hmem with h | h
        · rw [h]
          exact constructExecutedActionEntry_actionOf _ _ _ _
        rcases List.mem_append.mp h with h | h
        · rcases List.mem_map.mp h with ⟨line, _, heq⟩
          rw [← heq]
          exact constructExecutedActionEntry_actionOf _ _ _ _
        · simp at h
          rw [h]
          exact constructExecutedActionEntry_actionOf _ _ _ _
      | error err =>
        simp only [awaitChildAndStream, hso, hse, hw, Bool.not_true,
          Bool.false_eq_true, if_false] at hmem
        rcases List.mem_cons.mp hmem with h | h
        · rw [h]
          exact constructExecutedActionEntry_actionOf _ _ _ _
        rcases List.mem_append.mp h with h | h
        · rcases List.mem_map.mp h with ⟨line, _, heq⟩
          rw [← heq]
          exact constructExecutedActionEntry_actionOf _ _ _ _
        · simp at h
          rw [h]
          exact constructExecutedActionEntry_actionOf _ _ _ _
    · simp [awaitChildAndStream, hso, hse] at hmem
      rw [hmem]
      exact constructExecutedActionEntry_actionOf _ _ _ _
  · simp [awaitChildAndStream, hso] at hmem
    rw [hmem]
    exact constructExecutedActionEntry_actionOf _ _ _ _

/-- The init environment of the C3 scenario: the directory is fresh, the
clone spawns but the child exits with status 1. -/
def cloneFailingInitEnv : InitEnv :=
  { dirExistenceCheck := .ok false, cloneSpawn := .ok (),
    cloneRun := failingChildRun, revParse := .ok (.ok "c0ffee"),
    revWriteOk := true, scripts := { behavior := fun _ => .absent } }

/-- C3 counterexample: at a concrete input whose `git clone` child exits
with status 1, the init phase aborts at the clone step — and the deployment
nevertheless reaches the *Prepared* state, because
`DeployExecutor::prepare_deployment` sets it unconditionally. -/
theorem clone_failure_still_reaches_prepared :
    (initDeployment exampleRelease "/srv/releases/web/100" exampleProfile
        cloneFailingInitEnv).2 = .abortedCloneWait ∧
    (prepareDeployment exampleRelease "/srv/releases/web/100" exampleProfile
        cloneFailingInitEnv).2 = .Prepared := by
  exact ⟨rfl, rfl⟩

/-- C3 (amended): `prepare_deployment` sets the deployment state to
*Prepared* unconditionally after the init phase returns — even when the git
clone failed; the clone failure does abort the rest of the init phase (the
function returns at the clone step and emits no symlink or script frame),
but the deployment still reaches *Prepared*. -/
theorem prepare_deployment_state_after_init :
    (∀ (release : Release) (deploymentDirectory : String)
        (cfg : DeploymentConfiguration) (env : InitEnv),
      (prepareDeployment release deploymentDirectory cfg env).2 = .Prepared) ∧
    (∀ (release : Release) (deploymentDirectory : String)
        (cfg : DeploymentConfiguration) (env : InitEnv) (err : String),
      env.dirExistenceCheck = .ok false →
      env.cloneSpawn = .ok () →
      (awaitChildAndStream .GitClone release.id env.cloneRun).2 = .error err →
      ((initDeployment release deploymentDirectory cfg env).2 =
          .abortedCloneWait ∧
        ∀ item ∈ (initDeployment release deploymentDirectory cfg env).1,
          item.actionOf = some .GitClone ∨ item.actionOf = none)) := by
  constructor
  · intro release deploymentDirectory cfg env
    rfl
  · intro release deploymentDirectory cfg env err hdir hspawn hwait
    have hinit : initDeployment release deploymentDirectory cfg env =
        ((awaitChildAndStream .GitClone release.id env.cloneRun).1
            ++ [.errorStatus
              ("issue while waiting for git clone process to complete: "
                ++ err)],
          .abortedCloneWait) := by
      unfold initDeployment
      rw [hdir, hspawn]
      simp only [hwait]
    rw [hinit]
    refine ⟨rfl, ?_⟩
    intro item hmem
    rcases List.mem_append.mp hmem with h | h
    · exact awaitChildAndStream_actions .GitClone release.id env.cloneRun item h
    · simp at h
      rw [h]
      right
      rfl

/-- Witness for C3 (amended) at the concrete clone-failure input: the init
phase aborts at the clone step, every emitted item is a *GitClone* frame or
an error status, and the state still becomes *Prepared*. -/
theorem prepare_deployment_state_after_init_witness :
    ((prepareDeployment exampleRelease "/srv/releases/web/100" exampleProfile
        cloneFailingInitEnv).2 = .Prepared) ∧
    ((initDeployment exampleRelease "/srv/releases/web/100" exampleProfile
        cloneFailingInitEnv).2 = .abortedCloneWait ∧
      ∀ item ∈ (initDeployment exampleRelease "/srv/releases/web/100"
          exampleProfile cloneFailingInitEnv).1,
        item.actionOf = some .GitClone ∨ item.actionOf = none) :=
  ⟨prepare_deployment_state_after_init.1 exampleRelease "/srv/releases/web/100"
      exampleProfile cloneFailingInitEnv,
    prepare_deployment_state_after_init.2 exampleRelease "/srv/releases/web/100"
      exampleProfile cloneFailingInitEnv
      "process did not complete with an successful exit status" rfl rfl rfl⟩

/- ## Theorems for C6 -/

/-- A clone child that exits successfully without output. -/
def succeedingChildRun : ChildRun :=
  { stdoutAvailable := true, stderrAvailable := true, mergedLines := [],
    waitResult := .ok 0 }

/-- The profile of the C6 scenario: one configured symlink
`cfg:/etc/app-config`. -/
def symlinkProfile : DeploymentConfiguration :=
  { exampleProfile with symlinks := ["cfg:/etc/app-config"] }

/-- The init environment of the C6 scenario: everything succeeds. -/
def symlinkInitEnv : InitEnv :=
  { dirExistenceCheck := .ok false, cloneSpawn := .ok (),
    cloneRun := succeedingChildRun, revParse := .ok (.ok "c0ffee"),
    revWriteOk := true, scripts := { behavior := fun _ => .absent } }

/-- C6 (code bug): the symlink source path is built with `Debug` formatting
(`format!("{deploy_directory:?}/{symlink_source}")`), so for checkout
`/srv/releases/web/100` and entry `cfg:/etc/app-config` the path at which
the symlink is attempted is `"/srv/releases/web/100"/cfg` — it contains
literal quote characters, is relative, and is not `<checkout>/<source>` as
the code's own log message and comments intend; the announced
*Running/SymlinkCreate/Stdout* frame carries the same mangled path. -/
theorem symlink_path_uses_debug_formatting :
    symlinkSourcePath "/srv/releases/web/100" "cfg" =
      "\"/srv/releases/web/100\"/cfg" ∧
    symlinkSourcePath "/srv/releases/web/100" "cfg" ≠
      "/srv/releases/web/100/cfg" ∧
    '"' ∈ (symlinkSourcePath "/srv/releases/web/100" "cfg").toList ∧
    (easydep.ChannelItem.entry
        { releaseId := 100, currentAction := .SymlinkCreate,
          actionStatus := .Running,
          actionLogEntry := some
            { streamType := .Stdout,
              content :=
                "creating symlink \"/srv/releases/web/100\"/cfg -> /etc/app-config" } })
      ∈ (initDeployment exampleRelease "/srv/releases/web/100" symlinkProfile
        symlinkInitEnv).1 := by
  refine ⟨by decide, by decide, by decide, by decide⟩

/- ## Token confinement: taint-level view of the init phase
(src/easydep-server/src/executor/deploy_init_executor.rs,
 src/easydep-server/src/process_streamer.rs,
 src/easydep-server/src/executor/script_executor.rs) -/

/-- A fragment of a string the agent builds.  Every string the init phase
writes into a channel item or the agent log, and every argument it passes to
the `git clone` child, is the concatenation the source performs of literal
text and input data; `secretToken` marks the clone token revealed by
`github_access_token.expose_secret()`, and the other non-literal fragments
stand for the opaque inputs (captured child output lines, environment error
displays, configuration fields). -/
inductive MsgPart
  | lit (s : String)
  | secretToken
  | repoOwner
  | repoName
  | tagNamePart
  | deploymentDirectory
  | revisionFilePath
  | childLine (index : Nat) (stream : easydep.LogType)
  | exitStatusPart
  | ioError (origin : String)
  | revParseStderr
  | symlinkSourcePart (index : Nat)
  | symlinkTargetPart (index : Nat)
  | scriptPathPart (path : String)
  | streamerError
  deriving Repr, DecidableEq

/-- The repository url built by `init_deployment`:
`https://x-access-token:<token>@github.com/<owner>/<repo>.git`.  The
revealed clone token flows into this string. -/
def cloneRepositoryUrl : List MsgPart :=
  [.lit "https://x-access-token:", .secretToken, .lit "@github.com/",
   .repoOwner, .lit "/", .repoName, .lit ".git"]

/-- The full `git clone` argument list built by `init_deployment`. -/
def gitCloneArguments : List (List MsgPart) :=
  [[.lit "clone"], [.lit "-c"], [.lit "advice.detachedHead=false"],
   [.lit "--depth"], [.lit "1"], [.lit "--branch"], [.tagNamePart],
   cloneRepositoryUrl, [.deploymentDirectory]]

/-- The contents one process-streamer run can emit (the *Started* frame
carries no line): one *Running* frame per captured child line, an error
status for a failed line read, the terminal frame's synthetic line, and the
wait-error display. -/
def streamerEmittedContents (lines : List easydep.LogType) (origin : String) :
    List (List MsgPart) :=
  lines.enum.map (fun p => [.childLine p.1 p.2])
    ++ [[.ioError origin],
        [.lit "Process finished with ", .exitStatusPart],
        [.lit "Error awaiting process for current action: ", .ioError origin]]

/-- Every string `init_deployment` can write into a channel item or the
agent log, across all control-flow paths, as the fragment lists the source
concatenates: the precondition errors, the clone streamer's frames and
errors, the revision-file step, the symlink step, and the script executor's
frames and errors.  The union over the paths over-approximates the emitted
contents of every concrete run. -/
def initDeploymentEmittedContents (cloneLines : List easydep.LogType)
    (symlinkCount : Nat) (scriptPaths : List String)
    (scriptLines : List easydep.LogType) : List (List MsgPart) :=
  [[.lit "deployment directory already exists, deployment was likely triggered already"],
   [.lit "unable to stat existence of deployment directory ",
    .deploymentDirectory, .lit ": ", .ioError "stat"],
   [.lit "issue while spawning git clone process: ", .ioError "clone-spawn"]]
  ++ streamerEmittedContents cloneLines "clone"
  ++ [[.lit "issue while waiting for git clone process to complete: ",
       .streamerError],
      [.lit "unable to parse head-ref: ", .revParseStderr],
      [.lit "unable to parse head-ref: ", .ioError "rev-parse-spawn"],
      [.lit "Unable to write revision file to ", .revisionFilePath,
       .lit ": ", .ioError "rev-write"]]
  ++ (List.range symlinkCount).flatMap (fun i =>
      [[.lit "creating symlink \"", .deploymentDirectory, .lit "\"/",
        .symlinkSourcePart i, .lit " -> ", .symlinkTargetPart i],
       [.lit "Unable to symlink ", .symlinkTargetPart i, .lit " -> ",
        .lit "\"", .deploymentDirectory, .lit "\"/", .symlinkSourcePart i,
        .lit ": ", .ioError "symlink"]])
  ++ scriptPaths.flatMap (fun p =>
      [[.lit "unable to spawn process to execute lifecycle script: ",
        .ioError "script-spawn"],
       [.lit "issue while waiting for script to complete: ", .streamerError],
       [.lit "unable to execute script at ", .scriptPathPart p, .lit ": ",
        .streamerError]])
  ++ streamerEmittedContents scriptLines "script"

/- ## Theorems for C7 -/

/-- Helper: no content a process-streamer run emits holds the secret
token fragment. -/
theorem streamerEmittedContents_no_secret (lines : List easydep.LogType)
    (origin : String) :
    ∀ content ∈ streamerEmittedContents lines origin,
      MsgPart.secretToken ∉ content := by
  intro content hmem
  rcases List.mem_append.mp hmem with h | h
  · rcases List.mem_map.mp h with ⟨p, _, heq⟩
    rw [← heq]
    simp
  · simp at h
    rcases h with h | h | h
    all_goals rw [h]; simp

/-- C7: across every control-flow path of the init phase, no string written
to an output frame or to the agent log contains the clone token fragment —
while the token does flow into the `git clone` repository-url argument, so
the statement is not vacuous. -/
theorem clone_token_confined_to_git_arguments :
    (∀ (cloneLines : List easydep.LogType) (symlinkCount : Nat)
        (scriptPaths : List String) (scriptLines : List easydep.LogType),
      ∀ content ∈ initDeploymentEmittedContents cloneLines symlinkCount
          scriptPaths scriptLines,
        MsgPart.secretToken ∉ content) ∧
    MsgPart.secretToken ∈ cloneRepositoryUrl := by
  constructor
  · intro cloneLines symlinkCount scriptPaths scriptLines content hmem
    unfold initDeploymentEmittedContents at hmem
    rcases List.mem_append.mp hmem with h | h
    · rcases List.mem_append.mp h with h | h
      · rcases List.mem_append.mp h with h | h
        · rcases List.mem_append.mp h with h | h
          · rcases List.mem_append.mp h with h | h
            · simp at h
              rcases h with h | h | h
              all_goals rw [h]; simp
            · exact streamerEmittedContents_no_secret cloneLines "clone"
                content h
          · simp at h
            rcases h with h | h | h | h
            all_goals rw [h]; simp
        · rcases List.mem_flatMap.mp h with ⟨i, _, hin⟩
          simp at hin
          rcases hin with hin | hin
          all_goals rw [hin]; simp
      · rcases List.mem_flatMap.mp h with ⟨p, _, hin⟩
        simp at hin
        rcases hin with hin | hin | hin
        all_goals rw [hin]; simp
    · exact streamerEmittedContents_no_secret scriptLines "script" content h
  · simp [cloneRepositoryUrl]

/-- Witness for C7 at a concrete input: the terminal-frame synthetic line of
a run with no child output, no symlinks and no scripts holds no secret
fragment. -/
theorem clone_token_confined_to_git_arguments_witness :
    MsgPart.secretToken ∉
      [MsgPart.lit "Process finished with ", MsgPart.exitStatusPart] :=
  clone_token_confined_to_git_arguments.1 [] 0 [] []
    [MsgPart.lit "Process finished with ", MsgPart.exitStatusPart] (by decide)
